import Mathlib

/-!
Shallow embedding of the ProjectArkWatson detection and planning pipeline
(src/src/monitoring/watsonx_agents.py, src/src/monitoring/planning_agents.py,
src/src/workflows/detection_nodes.py, src/src/workflows/detection_workflow.py,
src/src/core/state.py), together with theorems settling the frozen claims
about it.  Numeric values that Python holds as floats are modelled as exact
rationals; every float literal in the source (0.4, 0.3, 0.2, 0.15, 0.1, 0.8,
0.6, 0.5) is a dyadic/decimal value represented exactly.
-/

namespace ArkWatson

/-- Truncation toward zero of a rational number, as Python's `int(...)`
applied to a float: `int(affected_area_km2 * population_density)`.
For a rational `q = num/den` in lowest terms with `den > 0`, Lean's
`Int` division `num / den` truncates toward zero exactly as Python does. -/
def truncQ (q : ℚ) : ℤ := q.num / q.den

/-- Severity-level string computed from the score, from
`severity_impact_analyzer` (watsonx_agents.py lines 479-489):
`>= 0.8` extreme, `>= 0.6` critical, `>= 0.4` high, `>= 0.2` moderate,
otherwise low. -/
def severityLevelOf (severity_score : ℚ) : String :=
  if 4/5 ≤ severity_score then "extreme"
  else if 3/5 ≤ severity_score then "critical"
  else if 2/5 ≤ severity_score then "high"
  else if 1/5 ≤ severity_score then "moderate"
  else "low"

/-- Population tier of the severity score (watsonx_agents.py lines 459-464):
`+0.3` when population at risk exceeds 10000, `+0.15` when it exceeds 1000. -/
def populationTier (population_at_risk : ℤ) : ℚ :=
  if 10000 < population_at_risk then 3/10
  else if 1000 < population_at_risk then 3/20
  else 0

/-- Critical-infrastructure tier (watsonx_agents.py lines 467-472):
`+0.2` for more than 10 facilities, `+0.1` for more than 0. -/
def infrastructureTier (critical_infrastructure_count : ℤ) : ℚ :=
  if 10 < critical_infrastructure_count then 1/5
  else if 0 < critical_infrastructure_count then 1/10
  else 0

/-- Affected-area tier (watsonx_agents.py lines 475-477):
`+0.1` for more than 100 km². -/
def areaTier (affected_area_km2 : ℚ) : ℚ :=
  if 100 < affected_area_km2 then 1/10 else 0

/-- Magnitude tier (watsonx_agents.py lines 446-456).  The magnitude string
is parsed with `float(...)` inside `try`/`except`; a string the parse
rejects contributes nothing, which we model by `Option ℚ` with `none`
for an unparseable magnitude.  The tier is only ever added for
`disaster_type == "earthquake"`. -/
def magnitudeTier (disaster_type : String) (magnitude_or_intensity : Option ℚ) : ℚ :=
  if disaster_type = "earthquake" then
    match magnitude_or_intensity with
    | some magnitude =>
        if 6 ≤ magnitude then 2/5
        else if 4 ≤ magnitude then 1/5
        else 0
    | none => 0
  else 0

/-- Result record of `severity_impact_analyzer` (the fields of the JSON
object built at watsonx_agents.py lines 514-529 that the claims are about).
The source rounds `severity_score` to two decimals in the JSON; every
attainable score is a multiple of 1/20, on which that rounding is the
identity, so the raw score is kept. -/
structure SeverityResult where
  severity_level : String
  severity_score : ℚ
  population_at_risk : ℤ
  evacuation_needed : Bool
  emergency_response_required : Bool
  escalation_required : Bool
  deriving Repr, DecidableEq

/-- Embedding of the `severity_impact_analyzer` tool
(watsonx_agents.py lines 417-529, success path). -/
def severity_impact_analyzer (disaster_type : String)
    (magnitude_or_intensity : Option ℚ) (affected_area_km2 : ℚ)
    (population_density : ℤ) (critical_infrastructure_count : ℤ) :
    SeverityResult :=
  let population_at_risk : ℤ := truncQ (affected_area_km2 * population_density)
  let severity_score : ℚ :=
    magnitudeTier disaster_type magnitude_or_intensity
      + populationTier population_at_risk
      + infrastructureTier critical_infrastructure_count
      + areaTier affected_area_km2
  let severity_level := severityLevelOf severity_score
  { severity_level := severity_level
    severity_score := severity_score
    population_at_risk := population_at_risk
    evacuation_needed := decide (1/2 < severity_score)
    emergency_response_required := decide (3/5 < severity_score)
    escalation_required :=
      decide (severity_level ∈ (["high", "critical", "extreme"] : List String)) }

/-- The severity level lands in the escalation set exactly when the score
reaches 0.4 (the `high` breakpoint). -/
theorem severityLevelOf_mem_escalation_iff (s : ℚ) :
    severityLevelOf s ∈ (["high", "critical", "extreme"] : List String) ↔ 2/5 ≤ s := by
  unfold severityLevelOf
  split_ifs with h1 h2 h3 h4 <;>
    simp_all <;> linarith

/-- Claim C2, counterexample.  On disaster type `flood` with affected area
50 km², population density 300/km² (population at risk 15000) and 5
critical facilities, the analyzer scores 0.4, grades it `high`, and sets
`escalation_required = true` even though the score does not exceed 0.5 —
so `escalation_required` is not `score > 0.5`. -/
theorem claim_C2_counterexample :
    (severity_impact_analyzer "flood" none 50 300 5).escalation_required = true ∧
      ¬ (1/2 < (severity_impact_analyzer "flood" none 50 300 5).severity_score) ∧
      (severity_impact_analyzer "flood" none 50 300 5).severity_score = 2/5 := by
  refine ⟨?_, ?_, ?_⟩ <;>
    norm_num [severity_impact_analyzer, magnitudeTier, populationTier, infrastructureTier,
      areaTier, truncQ, severityLevelOf]

/-- Claim C2, amended.  `escalation_required` is true exactly when the
severity score reaches 0.4 (equivalently, when the severity level is
`high`, `critical` or `extreme`); the worked example — earthquake of
magnitude 6.5, area 150 km², density 100/km² (population at risk 15000),
12 critical facilities — still scores 1.0, grades `extreme`, and escalates. -/
theorem claim_C2_escalation_amended :
    (∀ dt m a d c, ((severity_impact_analyzer dt m a d c).escalation_required = true ↔
        2/5 ≤ (severity_impact_analyzer dt m a d c).severity_score)) ∧
    (severity_impact_analyzer "earthquake" (some (13/2)) 150 100 12).severity_score = 1 ∧
    (severity_impact_analyzer "earthquake" (some (13/2)) 150 100 12).severity_level = "extreme" ∧
    (severity_impact_analyzer "earthquake" (some (13/2)) 150 100 12).escalation_required = true := by
  refine ⟨fun dt m a d c => ?_, ?_, ?_, ?_⟩
  · simp only [severity_impact_analyzer, decide_eq_true_eq]
    exact severityLevelOf_mem_escalation_iff _
  all_goals
    norm_num [severity_impact_analyzer, magnitudeTier, populationTier, infrastructureTier,
      areaTier, truncQ, severityLevelOf]

/-- Claim C10.  The magnitude input contributes to the severity score only
for disaster type `earthquake` (+0.4 when the parsed magnitude is at least
6.0, +0.2 when at least 4.0, nothing when the string fails to parse); for
every other type the score is the sum of the population, infrastructure
and area tiers alone, the same for all magnitude inputs. -/
theorem claim_C10_magnitude_only_earthquake :
    (∀ dt, dt ≠ "earthquake" → ∀ m a d c,
        (severity_impact_analyzer dt m a d c).severity_score =
          populationTier (truncQ (a * d)) + infrastructureTier c + areaTier a) ∧
    (∀ m a d c, ((severity_impact_analyzer "earthquake" (some m) a d c).severity_score =
        (if 6 ≤ m then 2/5 else if 4 ≤ m then 1/5 else 0)
          + (populationTier (truncQ (a * d)) + infrastructureTier c + areaTier a))) ∧
    (∀ a d c, (severity_impact_analyzer "earthquake" none a d c).severity_score =
        populationTier (truncQ (a * d)) + infrastructureTier c + areaTier a) := by
  refine ⟨fun dt hdt m a d c => ?_, fun m a d c => ?_, fun a d c => ?_⟩
  · simp [severity_impact_analyzer, magnitudeTier, hdt, add_assoc]
  · simp [severity_impact_analyzer, magnitudeTier, add_assoc]
  · simp [severity_impact_analyzer, magnitudeTier, add_assoc]

/-- Witness for C10: instantiated at disaster type `flood` (not an
earthquake), magnitude 9, area 50 km², density 300/km², 5 facilities. -/
theorem claim_C10_witness :
    (severity_impact_analyzer "flood" (some 9) 50 300 5).severity_score =
      populationTier (truncQ ((50 : ℚ) * ((300 : ℤ) : ℚ))) + infrastructureTier 5 + areaTier 50 :=
  claim_C10_magnitude_only_earthquake.1 "flood" (by decide) (some 9) 50 300 5

/-! Threat classification: the closed enum sets of core/state.py, the
fallback classifier and the response validator of
`WatsonXDisasterClassifier` (watsonx_agents.py). -/

/-- Data sources, from the `APISource` enum (state.py lines 45-51). -/
inductive APISource
  | usgs_earthquake
  | noaa_weather
  | fema_open
  | nasa_worldview
  | osm_overpass
  deriving Repr, DecidableEq

/-- The fields of `MonitoringData` (state.py lines 134-141) that the
classifier fallback reads: the source and its alert count. -/
structure MonitoringData where
  source : APISource
  alerts_count : ℕ
  deriving Repr, DecidableEq

/-- Values of the `DisasterType` enum (state.py lines 13-23), the closed
set the validator checks `disaster_type` against. -/
def disasterTypeValues : List String :=
  ["earthquake", "wildfire", "flood", "hurricane", "tornado",
   "severe_weather", "volcanic", "landslide", "unknown"]

/-- Values of the `SeverityLevel` enum (state.py lines 26-32), the closed
set the validator checks `severity_level` against. -/
def severityLevelValues : List String :=
  ["low", "moderate", "high", "critical", "extreme"]

/-- A Python float as far as the confidence pipeline can observe it: an
ordinary (finite) value held exactly as a rational, or one of the special
values `nan`, `inf`, `-inf` that `float(...)` also accepts.  `nan`
matters because Python's `min`/`max` pass it through unclamped. -/
inductive PyFloat
  | num (q : ℚ)
  | nan
  | posInf
  | negInf
  deriving Repr, DecidableEq

/-- Python's `<` on floats: every comparison involving `nan` is false. -/
def pyLt : PyFloat → PyFloat → Bool
  | PyFloat.num a, PyFloat.num b => decide (a < b)
  | PyFloat.num _, PyFloat.posInf => true
  | PyFloat.negInf, PyFloat.num _ => true
  | PyFloat.negInf, PyFloat.posInf => true
  | _, _ => false

/-- Python's two-argument `max`: `result = a; if b > a: result = b`.
With `a = nan` the comparison is false and `nan` is returned. -/
def pyMax (a b : PyFloat) : PyFloat := if pyLt a b then b else a

/-- Python's two-argument `min`: `result = a; if b < a: result = b`.
With `a = nan` the comparison is false and `nan` is returned. -/
def pyMin (a b : PyFloat) : PyFloat := if pyLt b a then b else a

theorem pyMin_num_num (a b : ℚ) :
    pyMin (PyFloat.num a) (PyFloat.num b) = PyFloat.num (min a b) := by
  simp only [pyMin, pyLt, decide_eq_true_eq]
  split_ifs with h
  · rw [min_eq_right (le_of_lt h)]
  · rw [min_eq_left (le_of_not_lt h)]

theorem pyMax_num_num (a b : ℚ) :
    pyMax (PyFloat.num a) (PyFloat.num b) = PyFloat.num (max a b) := by
  simp only [pyMax, pyLt, decide_eq_true_eq]
  split_ifs with h
  · rw [max_eq_right (le_of_lt h)]
  · rw [max_eq_left (le_of_not_lt h)]

/-- Is the value an ordinary number lying in [0, 1]?  (`nan` and the
infinities are not.) -/
def inUnitInterval (x : PyFloat) : Bool :=
  match x with
  | PyFloat.num q => decide (0 ≤ q ∧ q ≤ 1)
  | _ => false

theorem inUnitInterval_num {q : ℚ} (h0 : 0 ≤ q) (h1 : q ≤ 1) :
    inUnitInterval (PyFloat.num q) = true := by
  simp [inUnitInterval, h0, h1]

/-- The clamp `min(max(x, 0.0), 1.0)` lands in [0, 1] for every float
except `nan`. -/
theorem inUnitInterval_clamp : ∀ x : PyFloat, x ≠ PyFloat.nan →
    inUnitInterval (pyMin (pyMax x (PyFloat.num 0)) (PyFloat.num 1)) = true
  | PyFloat.nan, hx => absurd rfl hx
  | PyFloat.posInf, _ => by
      have h1 : pyMax PyFloat.posInf (PyFloat.num 0) = PyFloat.posInf := rfl
      have h2 : pyMin PyFloat.posInf (PyFloat.num 1) = PyFloat.num 1 := rfl
      rw [h1, h2]
      exact inUnitInterval_num zero_le_one le_rfl
  | PyFloat.negInf, _ => by
      have h1 : pyMax PyFloat.negInf (PyFloat.num 0) = PyFloat.num 0 := rfl
      rw [h1, pyMin_num_num]
      exact inUnitInterval_num (le_min le_rfl zero_le_one) (min_le_right _ _)
  | PyFloat.num q, _ => by
      rw [pyMax_num_num, pyMin_num_num]
      exact inUnitInterval_num (le_min (le_max_right _ _) zero_le_one)
        (min_le_right _ _)

/-- The clamp `min(max(x, 0.0), 1.0)` returns `nan` on `nan`: both
comparisons are false, so both `max` and `min` keep their first
argument. -/
theorem clamp_nan :
    pyMin (pyMax PyFloat.nan (PyFloat.num 0)) (PyFloat.num 1) = PyFloat.nan := rfl

/-- A produced `ThreatClassification` (state model of §3 of the spec,
fields built at watsonx_agents.py lines 192-201 and 233-242).  The
confidence is a `PyFloat` because the validator's clamp can let `nan`
through. -/
structure ThreatClassification where
  threat_detected : Bool
  disaster_type : String
  confidence_score : PyFloat
  severity_level : String
  risk_factors : List String
  recommendations : List String
  requires_confirmation : Bool
  reasoning : String
  deriving Repr, DecidableEq

/-- Disaster type chosen by the fallback classifier (watsonx_agents.py
lines 222-231): the first source with alerts that is USGS gives
`earthquake`, NOAA gives `severe_weather` (each with `break`); any other
alerted source leaves the loop running. -/
def fallbackDisasterType : List MonitoringData → String
  | [] => "unknown"
  | d :: rest =>
    if 0 < d.alerts_count then
      if d.source = APISource.usgs_earthquake then "earthquake"
      else if d.source = APISource.noaa_weather then "severe_weather"
      else fallbackDisasterType rest
    else fallbackDisasterType rest

/-- Embedding of `_create_fallback_classification`
(watsonx_agents.py lines 214-242). -/
def _create_fallback_classification (monitoring_data : List MonitoringData) :
    ThreatClassification :=
  let total_alerts : ℕ := (monitoring_data.map (fun d => d.alerts_count)).sum
  let threat_detected := decide (0 < total_alerts)
  let confidence : PyFloat :=
    pyMin (PyFloat.num ((total_alerts : ℚ) * (1/5))) (PyFloat.num (4/5))
  { threat_detected := threat_detected
    disaster_type := fallbackDisasterType monitoring_data
    confidence_score := confidence
    severity_level := if 2 < total_alerts then "moderate" else "low"
    risk_factors := ["Fallback analysis: " ++ toString total_alerts ++ " total alerts"]
    recommendations := ["Investigate alerts manually", "Monitor situation closely"]
    requires_confirmation := threat_detected
    reasoning := "Fallback classification due to WatsonX processing error" }

/-- A raw `confidence_score` field as seen by `_validate_classification`:
absent (so `.get` supplies `0.0`), a value `float(...)` accepts — an
ordinary number, `nan` (reachable, e.g. from a bare `NaN` token that
`json.loads` accepts, or the string `"nan"`) or an infinity — or a value
`float(...)` raises on. -/
inductive RawConfidence
  | absent
  | val (x : PyFloat)
  | malformed
  deriving Repr, DecidableEq

/-- A raw classification response after JSON parsing, as consumed by
`_validate_classification` (watsonx_agents.py lines 190-212).  String
enum fields are `Option String` (`none` = key absent, so `.get` supplies
the default); a non-string JSON value in these positions behaves exactly
like a string outside the enum set, so `Option String` covers it.  The
boolean fields are the result of Python's `bool(...)` coercion. -/
structure RawClassification where
  threat_detected : Bool
  disaster_type : Option String
  confidence_score : RawConfidence
  severity_level : Option String
  risk_factors : List String
  recommendations : List String
  requires_confirmation : Bool
  reasoning : Option String
  deriving Repr, DecidableEq

/-- Embedding of `_validate_classification` (watsonx_agents.py lines
190-212).  Returns `none` when `float(classification.get(
"confidence_score", 0.0))` raises — the `ValueError` escapes to the
caller's outer handler (the inner handler at line 146 only catches
`json.JSONDecodeError`). -/
def _validate_classification (c : RawClassification) :
    Option ThreatClassification :=
  match c.confidence_score with
  | RawConfidence.malformed => none
  | RawConfidence.absent => some (validateWith c (PyFloat.num 0))
  | RawConfidence.val x => some (validateWith c x)
where
  /-- The validated record once the confidence float is in hand.  The
  clamp is Python's `min(max(x, 0.0), 1.0)`, which passes `nan`
  through. -/
  validateWith (c : RawClassification) (x : PyFloat) : ThreatClassification :=
    let dt := c.disaster_type.getD "unknown"
    let sl := c.severity_level.getD "low"
    { threat_detected := c.threat_detected
      disaster_type := if dt ∈ disasterTypeValues then dt else "unknown"
      confidence_score := pyMin (pyMax x (PyFloat.num 0)) (PyFloat.num 1)
      severity_level := if sl ∈ severityLevelValues then sl else "low"
      risk_factors := c.risk_factors
      recommendations := c.recommendations
      requires_confirmation := c.requires_confirmation
      reasoning := c.reasoning.getD "No reasoning provided" }

/-- Result of `classify_monitoring_data` (watsonx_agents.py lines
111-155) as a function of what the external call produced: `none` models
a call error or a JSON parse failure (fallback), and a raw response whose
confidence float raises also falls back via the outer handler. -/
def classify_monitoring_data (raw : Option RawClassification)
    (monitoring_data : List MonitoringData) : ThreatClassification :=
  match raw with
  | none => _create_fallback_classification monitoring_data
  | some r =>
    match _validate_classification r with
    | some c => c
    | none => _create_fallback_classification monitoring_data

theorem fallbackDisasterType_mem (l : List MonitoringData) :
    fallbackDisasterType l ∈ disasterTypeValues := by
  induction l with
  | nil => simp [fallbackDisasterType, disasterTypeValues]
  | cons d rest ih =>
    simp only [fallbackDisasterType]
    split_ifs <;> simp_all [disasterTypeValues]

/-- Claim C7.  The deterministic fallback classification has
`threat_detected = (total_alerts > 0)`,
`confidence = min(total_alerts * 0.2, 0.8)`,
`severity_level = moderate if total_alerts > 2 else low` and
`requires_confirmation = threat_detected`; on a source list with 3 total
alerts it yields confidence 0.6 and level `moderate`, and on one with 0
alerts it detects no threat. -/
theorem claim_C7_fallback_classifier :
    (∀ monitoring_data : List MonitoringData,
      ((_create_fallback_classification monitoring_data).threat_detected =
          decide (0 < (monitoring_data.map (fun d => d.alerts_count)).sum)) ∧
      ((_create_fallback_classification monitoring_data).confidence_score =
          PyFloat.num (min ((((monitoring_data.map
            (fun d => d.alerts_count)).sum : ℕ) : ℚ) * (1/5)) (4/5))) ∧
      ((_create_fallback_classification monitoring_data).severity_level =
          if 2 < (monitoring_data.map (fun d => d.alerts_count)).sum
          then "moderate" else "low") ∧
      ((_create_fallback_classification monitoring_data).requires_confirmation =
          (_create_fallback_classification monitoring_data).threat_detected)) ∧
    ((_create_fallback_classification
        [⟨APISource.usgs_earthquake, 3⟩]).confidence_score = PyFloat.num (3/5)) ∧
    ((_create_fallback_classification
        [⟨APISource.usgs_earthquake, 3⟩]).severity_level = "moderate") ∧
    ((_create_fallback_classification
        [⟨APISource.noaa_weather, 0⟩]).threat_detected = false) := by
  refine ⟨fun monitoring_data =>
      ⟨rfl, by simp only [_create_fallback_classification, pyMin_num_num], rfl, rfl⟩,
    ?_, ?_, ?_⟩
  · norm_num [_create_fallback_classification, pyMin_num_num, min_def]
  · norm_num [_create_fallback_classification]
  · norm_num [_create_fallback_classification]

/-- A raw response whose confidence field is the float `nan` — reachable,
since `json.loads` accepts a bare `NaN` token and `float("nan")`
succeeds, so no handler fires. -/
def rawNan : RawClassification :=
  { threat_detected := true, disaster_type := some "earthquake"
    confidence_score := RawConfidence.val PyFloat.nan
    severity_level := some "high", risk_factors := [], recommendations := []
    requires_confirmation := true, reasoning := none }

/-- Claim C8, counterexample.  On a raw response carrying confidence
`nan`, the validator's clamp `min(max(nan, 0.0), 1.0)` returns `nan`
(both comparisons against `nan` are false), so the validated
classification's confidence is `nan`, outside [0, 1]. -/
theorem claim_C8_counterexample :
    (_validate_classification rawNan).map (fun c => c.confidence_score) =
        some PyFloat.nan ∧
    (_validate_classification rawNan).map
        (fun c => inUnitInterval c.confidence_score) = some false :=
  ⟨rfl, rfl⟩

/-- Claim C8, amended.  Whatever raw response the classifier receives
(including arbitrary or malformed fields, and including the fallback
paths), the returned classification has `disaster_type` in the closed
disaster-type set (coerced to `unknown` on mismatch) and
`severity_level` in the closed severity set (coerced to `low` on
mismatch) — no enum field is passed through unvalidated; the confidence
is clamped into [0, 1] whenever the parsed confidence float is not
`nan` (absent values, ordinary numbers and infinities all clamp), but a
`nan` confidence passes through the clamp unchanged. -/
theorem claim_C8_validation_amended :
    (∀ (raw : Option RawClassification) (monitoring_data : List MonitoringData),
      ((classify_monitoring_data raw monitoring_data).disaster_type
          ∈ disasterTypeValues) ∧
      ((classify_monitoring_data raw monitoring_data).severity_level
          ∈ severityLevelValues) ∧
      (inUnitInterval
          (classify_monitoring_data raw monitoring_data).confidence_score = true ∨
        (classify_monitoring_data raw monitoring_data).confidence_score =
          PyFloat.nan)) ∧
    (∀ (r : RawClassification) (c : ThreatClassification),
      _validate_classification r = some c →
      (r.disaster_type.getD "unknown" ∉ disasterTypeValues →
          c.disaster_type = "unknown") ∧
      (r.severity_level.getD "low" ∉ severityLevelValues →
          c.severity_level = "low") ∧
      (∀ x : PyFloat, r.confidence_score = RawConfidence.val x →
          x ≠ PyFloat.nan → inUnitInterval c.confidence_score = true) ∧
      (r.confidence_score = RawConfidence.val PyFloat.nan →
          c.confidence_score = PyFloat.nan)) := by
  have hmk : ∀ (r : RawClassification) (x : PyFloat),
      (_validate_classification.validateWith r x).disaster_type
          ∈ disasterTypeValues ∧
      (_validate_classification.validateWith r x).severity_level
          ∈ severityLevelValues ∧
      (_validate_classification.validateWith r x).confidence_score =
        pyMin (pyMax x (PyFloat.num 0)) (PyFloat.num 1) := by
    intro r x
    refine ⟨?_, ?_, rfl⟩
    · simp only [_validate_classification.validateWith]
      split_ifs with h
      · exact h
      · simp [disasterTypeValues]
    · simp only [_validate_classification.validateWith]
      split_ifs with h
      · exact h
      · simp [severityLevelValues]
  have hFallback : ∀ l : List MonitoringData,
      (_create_fallback_classification l).disaster_type ∈ disasterTypeValues ∧
      (_create_fallback_classification l).severity_level ∈ severityLevelValues ∧
      inUnitInterval (_create_fallback_classification l).confidence_score = true := by
    intro l
    refine ⟨fallbackDisasterType_mem l, ?_, ?_⟩
    · simp only [_create_fallback_classification]
      split_ifs <;> simp [severityLevelValues]
    · simp only [_create_fallback_classification, pyMin_num_num]
      refine inUnitInterval_num (le_min (by positivity) (by norm_num)) ?_
      exact le_trans (min_le_right _ _) (by norm_num)
  constructor
  · intro raw monitoring_data
    match raw with
    | none =>
      obtain ⟨h1, h2, h3⟩ := hFallback monitoring_data
      exact ⟨h1, h2, Or.inl h3⟩
    | some r =>
      simp only [classify_monitoring_data, _validate_classification]
      match hc : r.confidence_score with
      | RawConfidence.malformed =>
        obtain ⟨h1, h2, h3⟩ := hFallback monitoring_data
        exact ⟨h1, h2, Or.inl h3⟩
      | RawConfidence.absent =>
        obtain ⟨h1, h2, h3⟩ := hmk r (PyFloat.num 0)
        exact ⟨h1, h2, Or.inl (by rw [h3]; exact inUnitInterval_clamp _ (by decide))⟩
      | RawConfidence.val x =>
        obtain ⟨h1, h2, h3⟩ := hmk r x
        by_cases hx : x = PyFloat.nan
        · subst hx
          exact ⟨h1, h2, Or.inr (by rw [h3]; exact clamp_nan)⟩
        · exact ⟨h1, h2, Or.inl (by rw [h3]; exact inUnitInterval_clamp _ hx)⟩
  · intro r c hc
    have hco : ∀ x : PyFloat, c = _validate_classification.validateWith r x →
        (r.disaster_type.getD "unknown" ∉ disasterTypeValues →
            c.disaster_type = "unknown") ∧
        (r.severity_level.getD "low" ∉ severityLevelValues →
            c.severity_level = "low") := by
      rintro x rfl
      constructor
      · intro hno
        simp only [_validate_classification.validateWith, if_neg hno]
      · intro hno
        simp only [_validate_classification.validateWith, if_neg hno]
    unfold _validate_classification at hc
    match hq : r.confidence_score with
    | RawConfidence.malformed => rw [hq] at hc; cases hc
    | RawConfidence.absent =>
      rw [hq] at hc
      have hce := (Option.some_injective _ hc).symm
      obtain ⟨h1, h2⟩ := hco (PyFloat.num 0) hce
      refine ⟨h1, h2, ?_, ?_⟩
      · intro x hx
        exact RawConfidence.noConfusion hx
      · intro hx
        exact RawConfidence.noConfusion hx
    | RawConfidence.val x =>
      rw [hq] at hc
      have hce := (Option.some_injective _ hc).symm
      obtain ⟨h1, h2⟩ := hco x hce
      refine ⟨h1, h2, ?_, ?_⟩
      · intro x' hx' hne
        injection hx' with hxx
        subst hxx
        rw [hce, (hmk r _).2.2]
        exact inUnitInterval_clamp _ hne
      · intro hx
        injection hx with hxx
        subst hxx
        rw [hce, (hmk r PyFloat.nan).2.2]
        exact clamp_nan

/-- A raw response with both enum fields outside their closed sets and
an ordinary out-of-range confidence. -/
def rawC8 : RawClassification :=
  { threat_detected := true, disaster_type := some "meteor_strike"
    confidence_score := RawConfidence.val (PyFloat.num 5)
    severity_level := some "apocalyptic"
    risk_factors := [], recommendations := [], requires_confirmation := true
    reasoning := none }

/-- Witness for C8: the raw response `rawC8`, whose enum fields are
outside their sets and whose confidence is the ordinary float 5, is
coerced to `unknown`, `low`, and a confidence inside [0, 1]. -/
theorem claim_C8_witness :
    (_validate_classification.validateWith rawC8 (PyFloat.num 5)).disaster_type =
        "unknown" ∧
    (_validate_classification.validateWith rawC8 (PyFloat.num 5)).severity_level =
        "low" ∧
    inUnitInterval (_validate_classification.validateWith rawC8
        (PyFloat.num 5)).confidence_score = true :=
  ⟨(claim_C8_validation_amended.2 rawC8
      (_validate_classification.validateWith rawC8 (PyFloat.num 5)) rfl).1
      (by decide),
   (claim_C8_validation_amended.2 rawC8
      (_validate_classification.validateWith rawC8 (PyFloat.num 5)) rfl).2.1
      (by decide),
   (claim_C8_validation_amended.2 rawC8
      (_validate_classification.validateWith rawC8 (PyFloat.num 5)) rfl).2.2.1
      (PyFloat.num 5) rfl (by decide)⟩

/-! Confirmation gate: `web_search_disaster_confirmation`
(watsonx_agents.py lines 334-414). -/

/-- Python's `str.lower()` (ASCII case folding suffices for the strings
involved here). -/
def lowerStr (s : String) : String := String.mk (s.data.map Char.toLower)

/-- Helper for the substring test: does `needle` match at the head of the
second list? -/
def charsLeadBy : List Char → List Char → Bool
  | [], _ => true
  | _ :: _, [] => false
  | a :: as, b :: bs => (a == b) && charsLeadBy as bs

/-- Does `needle` occur contiguously anywhere in the list? -/
def charsContain (needle : List Char) : List Char → Bool
  | [] => charsLeadBy needle []
  | b :: bs => charsLeadBy needle (b :: bs) || charsContain needle bs

/-- Python's `needle in hay` on strings (contiguous substring). -/
def containsSub (hay needle : String) : Bool := charsContain needle.data hay.data

/-- The four search queries built at watsonx_agents.py lines 362-367;
`year` stands for `datetime.now().strftime(%Y)`. -/
def confirmation_queries
    (disaster_type location_name severity_level year : String) : List String :=
  [disaster_type ++ " " ++ location_name ++ " " ++ year,
   disaster_type ++ " alert " ++ location_name,
   "disaster " ++ location_name ++ " today",
   severity_level ++ " " ++ disaster_type ++ " " ++ location_name]

/-- The keyword test applied to each search result
(watsonx_agents.py lines 381-384). -/
def resultCorroborates (disaster_type results : String) : Bool :=
  [lowerStr disaster_type, "emergency", "alert", "warning"].any
    (fun keyword => containsSub (lowerStr results) keyword)

/-- The fields of the JSON object returned by the confirmation tool
(watsonx_agents.py lines 393-401) that the claims are about. -/
structure ConfirmationResult where
  confirmed : Bool
  confirmation_confidence : ℚ
  sources_found : ℕ
  search_queries : List String
  confirmed_sources : List String
  deriving Repr, DecidableEq

/-- Embedding of `web_search_disaster_confirmation` (watsonx_agents.py
lines 334-414, success path).  `search` models the external engine: it
maps a query to its result text, or to `none` when the call raises (that
query is then skipped, line 386).  Only `queries[:2]` are executed
(line 372), but the confidence divides by `len(queries)` (line 390). -/
def web_search_disaster_confirmation
    (disaster_type location_name severity_level year : String)
    (search : String → Option String) : ConfirmationResult :=
  let queries := confirmation_queries disaster_type location_name severity_level year
  let confirmed_sources := (queries.take 2).filter (fun q =>
    match search q with
    | some results => resultCorroborates disaster_type results
    | none => false)
  let confirmation_confidence : ℚ :=
    if queries = [] then 0
    else (confirmed_sources.length : ℚ) / (queries.length : ℚ)
  { confirmed := decide ((3 : ℚ)/10 < confirmation_confidence)
    confirmation_confidence := confirmation_confidence
    sources_found := confirmed_sources.length
    search_queries := queries.take 2
    confirmed_sources := confirmed_sources }

theorem web_search_confidence_eq
    (disaster_type location_name severity_level year : String)
    (search : String → Option String) :
    (web_search_disaster_confirmation disaster_type location_name severity_level
        year search).confirmation_confidence =
      ((web_search_disaster_confirmation disaster_type location_name severity_level
          year search).sources_found : ℚ) / 4 := by
  simp [web_search_disaster_confirmation, confirmation_queries]

theorem web_search_confirmed_iff
    (disaster_type location_name severity_level year : String)
    (search : String → Option String) :
    ((web_search_disaster_confirmation disaster_type location_name severity_level
        year search).confirmed = true ↔
      (3 : ℚ)/10 < (web_search_disaster_confirmation disaster_type location_name
          severity_level year search).confirmation_confidence) := by
  simp [web_search_disaster_confirmation]

/-- A concrete search engine for the counterexample: the first executed
query finds a corroborating article, the second finds nothing relevant. -/
def searchEnvC1 : String → Option String := fun q =>
  if q = "earthquake springfield 2025" then some "Major earthquake shakes Springfield region"
  else if q = "earthquake alert springfield" then some "no recent news items found"
  else none

/-- Claim C1, counterexample.  Both executed queries return results and
exactly 1 of the 2 corroborates, yet the confidence is 1/4 (the count is
divided by the 4 constructed queries, not the 2 executed ones) and
`confirmed` is false — not the claimed ratio 0.5 with `confirmed = true`. -/
theorem claim_C1_counterexample :
    (web_search_disaster_confirmation "earthquake" "springfield" "moderate" "2025"
        searchEnvC1).sources_found = 1 ∧
    (web_search_disaster_confirmation "earthquake" "springfield" "moderate" "2025"
        searchEnvC1).search_queries.length = 2 ∧
    (web_search_disaster_confirmation "earthquake" "springfield" "moderate" "2025"
        searchEnvC1).confirmation_confidence = 1/4 ∧
    (web_search_disaster_confirmation "earthquake" "springfield" "moderate" "2025"
        searchEnvC1).confirmed = false := by
  have h1 : (web_search_disaster_confirmation "earthquake" "springfield" "moderate"
      "2025" searchEnvC1).sources_found = 1 := by decide
  have hconf : (web_search_disaster_confirmation "earthquake" "springfield" "moderate"
      "2025" searchEnvC1).confirmation_confidence = 1/4 := by
    rw [web_search_confidence_eq, h1]; norm_num
  refine ⟨h1, by decide, hconf, ?_⟩
  have hiff := web_search_confirmed_iff "earthquake" "springfield" "moderate" "2025"
    searchEnvC1
  rw [hconf] at hiff
  cases hb : (web_search_disaster_confirmation "earthquake" "springfield" "moderate"
      "2025" searchEnvC1).confirmed
  · rfl
  · exact absurd (hiff.mp hb) (by norm_num)

/-- Claim C1, amended.  The confirmation confidence is the number of
corroborating results divided by 4 — the number of constructed queries,
although only the first 2 are ever executed (so the confidence never
exceeds 1/2, and 1 corroborating result of the 2 executed queries gives
1/4, not 1/2); `confirmed` holds exactly when that ratio exceeds 0.3. -/
theorem claim_C1_confirmation_amended
    (disaster_type location_name severity_level year : String)
    (search : String → Option String) :
    ((web_search_disaster_confirmation disaster_type location_name severity_level
        year search).confirmation_confidence =
      ((web_search_disaster_confirmation disaster_type location_name severity_level
          year search).sources_found : ℚ) / 4) ∧
    ((web_search_disaster_confirmation disaster_type location_name severity_level
        year search).confirmed = true ↔
      (3 : ℚ)/10 < (web_search_disaster_confirmation disaster_type location_name
          severity_level year search).confirmation_confidence) ∧
    ((web_search_disaster_confirmation disaster_type location_name severity_level
        year search).sources_found ≤ 2) := by
  refine ⟨web_search_confidence_eq _ _ _ _ _, web_search_confirmed_iff _ _ _ _ _, ?_⟩
  simp only [web_search_disaster_confirmation]
  calc (List.filter _ (List.take 2 _)).length
      ≤ (List.take 2 (confirmation_queries disaster_type location_name severity_level
          year)).length := List.length_filter_le _ _
    _ ≤ 2 := by simp [confirmation_queries]

/-! Detection-loop retry bookkeeping: the failure branch of
`api_monitoring_node` (detection_nodes.py lines 87-96), the retry routing
of `_route_from_api_monitoring` (detection_workflow.py lines 151-160) and
the initial control fields of `create_initial_state`
(state.py lines 300-305). -/

/-- The control fields of the session state that the retry logic touches. -/
structure RetryState where
  retry_count : ℕ
  max_retries : ℕ
  next_action : String
  deriving Repr, DecidableEq

/-- The control fields as set by `create_initial_state`
(state.py lines 300-305): `retry_count = 0`, `max_retries = 3`,
`next_action = "poll_apis"`. -/
def initial_retry_state : RetryState :=
  { retry_count := 0, max_retries := 3, next_action := "poll_apis" }

/-- The failure branch of `api_monitoring_node` (detection_nodes.py lines
91-96): increments `retry_count` unconditionally and picks
`error_handling` when the old count has already reached `max_retries`,
otherwise routes back into `api_monitoring` for a retry. -/
def api_monitoring_failure (s : RetryState) : RetryState :=
  { retry_count := s.retry_count + 1
    max_retries := s.max_retries
    next_action :=
      if s.max_retries ≤ s.retry_count then "error_handling" else "api_monitoring" }

/-- A run of `n + 1` consecutive failing executions of the poll node, the
later ones entered only while `_route_from_api_monitoring` routes back to
`api_monitoring` (the graph's entry point runs the poll node once
regardless of `next_action`). -/
def pollFailureRun (s : RetryState) : ℕ → RetryState
  | 0 => api_monitoring_failure s
  | n + 1 =>
    let t := pollFailureRun s n
    if t.next_action = "api_monitoring" then api_monitoring_failure t else t

/-- Claim C3, counterexample.  Starting from the initial state
(`retry_count = 0`, `max_retries = 3`), four consecutive poll failures —
the fourth still reached through the retry route, since the third failure
left `retry_count = 3 `with the route check done on the pre-increment
value — drive `retry_count` to 4, exceeding `max_retries`. -/
theorem claim_C3_counterexample :
    (pollFailureRun initial_retry_state 3).retry_count = 4 ∧
    (pollFailureRun initial_retry_state 3).max_retries = 3 ∧
    ¬ ((pollFailureRun initial_retry_state 3).retry_count ≤
        (pollFailureRun initial_retry_state 3).max_retries) := by
  decide

/-- The success branch of `api_monitoring_node` (detection_nodes.py lines
77-85) as far as the control fields go: it moves on to `data_analysis`
and — notably — leaves `retry_count` untouched (no reset on success). -/
def api_monitoring_success (s : RetryState) : RetryState :=
  { s with next_action := "data_analysis" }

/-- One step of the detection loop under persistent poll failure: a state
routed to `error_handling` reaches `wait_interval_node`
(detection_workflow.py line 79), which sets `next_action` back to
`api_monitoring` (detection_nodes.py line 617) without touching
`retry_count`; every other state runs the poll node, which fails
(`api_monitoring_failure`).  The graph's `wait -> api_monitoring` edge
(detection_workflow.py line 142) is unconditional, so this loop is
reachable and never stops by itself. -/
def detectionFailStep (s : RetryState) : RetryState :=
  if s.next_action = "error_handling" then { s with next_action := "api_monitoring" }
  else api_monitoring_failure s

/-- `n` steps of the persistent-failure detection loop. -/
def detectionFailRun (s : RetryState) : ℕ → RetryState
  | 0 => s
  | n + 1 => detectionFailStep (detectionFailRun s n)

/-- Claim C3, amended.  What the code guarantees about `retry_count` is
only this: the poll step's failure branch routes back into an immediate
retry only when the incremented `retry_count` is still at most
`max_retries` (so a chain of immediate retries stops after at most
`max_retries` of them); `retry_count` itself is never reset — a
successful poll leaves it unchanged, no step decreases it, and the
error-handling fall-through re-enters polling through the wait state —
so under persistent failure it grows past every bound in `max_retries`:
six steps of the failure loop from the initial state leave it at 5,
exceeding even `max_retries + 1 = 4`. -/
theorem claim_C3_retry_amended :
    (∀ s : RetryState,
      (api_monitoring_failure s).next_action = "api_monitoring" →
        (api_monitoring_failure s).retry_count ≤
          (api_monitoring_failure s).max_retries) ∧
    (∀ s : RetryState, (api_monitoring_success s).retry_count = s.retry_count) ∧
    (∀ s : RetryState, s.retry_count ≤ (detectionFailStep s).retry_count) ∧
    ((detectionFailRun initial_retry_state 6).retry_count = 5 ∧
      ¬ ((detectionFailRun initial_retry_state 6).retry_count ≤
          initial_retry_state.max_retries + 1)) := by
  refine ⟨?_, fun s => rfl, ?_, by decide, by decide⟩
  · intro s h
    simp only [api_monitoring_failure] at h ⊢
    by_cases hc : s.max_retries ≤ s.retry_count
    · rw [if_pos hc] at h
      exact absurd h (by decide)
    · omega
  · intro s
    simp only [detectionFailStep]
    split_ifs
    · exact le_refl _
    · simp only [api_monitoring_failure]
      exact Nat.le_succ _

/-- Witness for C3: the retry-route guard instantiated at the initial
state, whose first failure routes back with `retry_count = 1 ≤ 3`. -/
theorem claim_C3_witness :
    (api_monitoring_failure initial_retry_state).retry_count ≤
      (api_monitoring_failure initial_retry_state).max_retries :=
  claim_C3_retry_amended.1 initial_retry_state (by decide)

/-! Event ledger: the id scheme and the active/history collections of
`create_event_record_node` (detection_nodes.py lines 441-515), plus the
monitoring-history cap of `api_monitoring_node` (lines 70-73). -/

/-- A two-digit zero-padded decimal rendering (the `%m %d %H %M %S`
fields of `strftime`). -/
def pad2 (n : ℕ) : List Char := [Nat.digitChar (n / 10), Nat.digitChar (n % 10)]

/-- A four-digit zero-padded decimal rendering (the `%Y` field of
`strftime`). -/
def pad4 (n : ℕ) : List Char := pad2 (n / 100) ++ pad2 (n % 100)

/-- A wall-clock instant at second granularity, the resolution of
`now.strftime('%Y%m%d_%H%M%S')` — the only part of `datetime.now()` the
event-id scheme looks at. -/
structure PyDateTime where
  year : ℕ
  month : ℕ
  day : ℕ
  hour : ℕ
  minute : ℕ
  second : ℕ
  deriving Repr, DecidableEq

/-- The character list of `now.strftime('%Y%m%d_%H%M%S')`. -/
def stampChars (t : PyDateTime) : List Char :=
  pad4 t.year ++ pad2 t.month ++ pad2 t.day ++ ['_']
    ++ pad2 t.hour ++ pad2 t.minute ++ pad2 t.second

/-- The formatted timestamp string. -/
def strftime_stamp (t : PyDateTime) : String := String.mk (stampChars t)

/-- The event id `f"event_{now.strftime('%Y%m%d_%H%M%S')}"` assigned at
detection_nodes.py line 462. -/
def eventIdOf (t : PyDateTime) : String := "event_" ++ strftime_stamp t

/-- Field bounds every value `datetime.now()` can produce (generous:
calendar datetimes have `year ≤ 9999`, `month ≤ 12`, and so on). -/
def validStamp (t : PyDateTime) : Prop :=
  t.year < 10000 ∧ t.month < 100 ∧ t.day < 100 ∧
    t.hour < 100 ∧ t.minute < 100 ∧ t.second < 100

instance (t : PyDateTime) : Decidable (validStamp t) := by
  unfold validStamp; infer_instance

/-- A disaster event as far as the ledger claims are concerned: its id. -/
structure EventRecord where
  id : String
  deriving Repr, DecidableEq

/-- The session-context collections touched by the record-event step. -/
structure LedgerState where
  active_events : List EventRecord
  event_history : List EventRecord
  current_event_id : Option String
  deriving Repr, DecidableEq

/-- Embedding of the collection updates of `create_event_record_node`
(detection_nodes.py lines 459-504): build the event with the
second-granularity timestamp id, append it to `active_events`
(no cap), append it to `event_history` keeping the last 50. -/
def create_event_record_step (now : PyDateTime) (s : LedgerState) : LedgerState :=
  let event : EventRecord := { id := eventIdOf now }
  let updated_active_events := s.active_events ++ [event]
  let grown_history := s.event_history ++ [event]
  let updated_event_history :=
    if 50 < grown_history.length then grown_history.drop (grown_history.length - 50)
    else grown_history
  { active_events := updated_active_events
    event_history := updated_event_history
    current_event_id := some event.id }

/-- Embedding of the monitoring-history update of `api_monitoring_node`
(detection_nodes.py lines 70-73): append the fresh records, keep the
last 100. -/
def monitoring_history_update (history new_data : List MonitoringData) :
    List MonitoringData :=
  let updated := history ++ new_data
  if 100 < updated.length then updated.drop (updated.length - 100) else updated

/-- `n` consecutive invocations of the record-event step, all at the same
wall-clock second `t`. -/
def ledgerIterate (t : PyDateTime) (s : LedgerState) : ℕ → LedgerState
  | 0 => s
  | n + 1 => create_event_record_step t (ledgerIterate t s n)

theorem digitChar_inj_lt : ∀ a < 10, ∀ b < 10,
    Nat.digitChar a = Nat.digitChar b → a = b := by decide

theorem pad2_inj {m n : ℕ} (hm : m < 100) (hn : n < 100) (h : pad2 m = pad2 n) :
    m = n := by
  simp only [pad2, List.cons.injEq, and_true] at h
  obtain ⟨h1, h2⟩ := h
  have e1 := digitChar_inj_lt _ (by omega) _ (by omega) h1
  have e2 := digitChar_inj_lt _ (Nat.mod_lt _ (by norm_num)) _
    (Nat.mod_lt _ (by norm_num)) h2
  omega

theorem pad4_inj {m n : ℕ} (hm : m < 10000) (hn : n < 10000)
    (h : pad4 m = pad4 n) : m = n := by
  unfold pad4 at h
  obtain ⟨h1, h2⟩ := List.append_inj h (by simp [pad2])
  have a1 : m / 100 = n / 100 := pad2_inj (by omega) (by omega) h1
  have a2 : m % 100 = n % 100 := pad2_inj (Nat.mod_lt _ (by norm_num))
    (Nat.mod_lt _ (by norm_num)) h2
  omega

theorem stampChars_inj {t1 t2 : PyDateTime} (h1 : validStamp t1)
    (h2 : validStamp t2) (h : stampChars t1 = stampChars t2) : t1 = t2 := by
  obtain ⟨hy1, hmo1, hd1, hh1, hmi1, hs1⟩ := h1
  obtain ⟨hy2, hmo2, hd2, hh2, hmi2, hs2⟩ := h2
  unfold stampChars at h
  obtain ⟨h, es⟩ := List.append_inj' h (by simp [pad2])
  obtain ⟨h, emi⟩ := List.append_inj' h (by simp [pad2])
  obtain ⟨h, eh⟩ := List.append_inj' h (by simp [pad2])
  obtain ⟨h, -⟩ := List.append_inj' h (by simp)
  obtain ⟨h, ed⟩ := List.append_inj' h (by simp [pad2])
  obtain ⟨ey, emo⟩ := List.append_inj' h (by simp [pad2])
  obtain ⟨y1, mo1, d1, hr1, mi1, s1⟩ := t1
  obtain ⟨y2, mo2, d2, hr2, mi2, s2⟩ := t2
  simp only at ey emo ed eh emi es hy1 hmo1 hd1 hh1 hmi1 hs1 hy2 hmo2 hd2 hh2 hmi2 hs2
  have := pad4_inj hy1 hy2 ey
  have := pad2_inj hmo1 hmo2 emo
  have := pad2_inj hd1 hd2 ed
  have := pad2_inj hh1 hh2 eh
  have := pad2_inj hmi1 hmi2 emi
  have := pad2_inj hs1 hs2 es
  simp_all

/-- Claim C4, counterexample.  Two successive invocations of the
record-event step within the same wall-clock second (here
2025-01-15 12:00:00) produce two active events carrying the identical id
`event_20250115_120000`. -/
theorem claim_C4_counterexample :
    ((create_event_record_step ⟨2025, 1, 15, 12, 0, 0⟩
        (create_event_record_step ⟨2025, 1, 15, 12, 0, 0⟩
          ⟨[], [], none⟩)).active_events.map (fun e => e.id)) =
      ["event_20250115_120000", "event_20250115_120000"] := by
  decide

/-- Claim C4, amended.  Two events created at timestamps that differ at
second granularity receive distinct ids (the formatted stamp is injective
on calendar datetimes); events created within the same second share an
id, so uniqueness holds only across distinct seconds. -/
theorem claim_C4_event_id_amended (t1 t2 : PyDateTime)
    (h1 : validStamp t1) (h2 : validStamp t2) (hne : t1 ≠ t2) :
    eventIdOf t1 ≠ eventIdOf t2 := by
  intro heq
  apply hne
  apply stampChars_inj h1 h2
  have hd := congrArg String.data heq
  simp only [eventIdOf, strftime_stamp, String.data] at hd
  simpa using hd

/-- Witness for C4's amended claim: timestamps one second apart yield
distinct ids. -/
theorem claim_C4_witness :
    eventIdOf ⟨2025, 1, 15, 12, 0, 0⟩ ≠ eventIdOf ⟨2025, 1, 15, 12, 0, 1⟩ :=
  claim_C4_event_id_amended ⟨2025, 1, 15, 12, 0, 0⟩ ⟨2025, 1, 15, 12, 0, 1⟩
    (by decide) (by decide) (by decide)

set_option maxRecDepth 8000 in
/-- Claim C5, counterexample.  After 51 record-event invocations from an
empty context, `event_history` is capped at 50 but `active_events` holds
all 51 events: `active_events` has no cap at all in the code. -/
theorem claim_C5_counterexample :
    (ledgerIterate ⟨2025, 1, 15, 12, 0, 0⟩ ⟨[], [], none⟩ 51).active_events.length = 51 ∧
    ¬ ((ledgerIterate ⟨2025, 1, 15, 12, 0, 0⟩ ⟨[], [], none⟩ 51).active_events.length ≤ 50) ∧
    (ledgerIterate ⟨2025, 1, 15, 12, 0, 0⟩ ⟨[], [], none⟩ 51).event_history.length = 50 := by
  refine ⟨?_, ?_, ?_⟩ <;> decide

/-- Claim C5, amended.  Under repeated insertion the monitoring history
never exceeds 100 entries and the event history never exceeds 50, both
evicting oldest-first (each update leaves a suffix of the appended list);
`active_events` has no cap — every record-event step grows it by one. -/
theorem claim_C5_bounded_collections_amended :
    (∀ history new_data : List MonitoringData,
      (monitoring_history_update history new_data).length ≤ 100 ∧
      List.IsSuffix (monitoring_history_update history new_data)
        (history ++ new_data)) ∧
    (∀ (t : PyDateTime) (s : LedgerState),
      (create_event_record_step t s).event_history.length ≤ 50 ∧
      List.IsSuffix (create_event_record_step t s).event_history
        (s.event_history ++ [{ id := eventIdOf t }]) ∧
      (create_event_record_step t s).active_events.length =
        s.active_events.length + 1) := by
  constructor
  · intro history new_data
    simp only [monitoring_history_update]
    by_cases h : 100 < (history ++ new_data).length
    · rw [if_pos h]
      constructor
      · rw [List.length_drop]; omega
      · exact List.drop_suffix _ _
    · rw [if_neg h]
      exact ⟨by omega, List.suffix_refl _⟩
  · intro t s
    simp only [create_event_record_step]
    by_cases h : 50 < (s.event_history ++ [({ id := eventIdOf t } : EventRecord)]).length
    · rw [if_pos h]
      refine ⟨?_, List.drop_suffix _ _, by simp⟩
      rw [List.length_drop]; omega
    · rw [if_neg h]
      refine ⟨?_, List.suffix_refl _, by simp⟩
      simp only [List.length_append, List.length_cons, List.length_nil] at h ⊢
      omega

/-! Planning phase: deployment-plan validation
(`_validate_deployment_plan`, planning_agents.py lines 283-300) and the
template deployment optimizer (`watsonx_team_deployment_optimizer`,
planning_agents.py lines 388-449) consumed by
`create_deployment_plan_node` (planning_nodes.py lines 287-312). -/

/-- The fields of a response team the deployment path reads. -/
structure ResponseTeamData where
  team_id : String
  response_time_minutes : ℕ
  deriving Repr, DecidableEq

/-- The fields of a population zone the deployment path reads. -/
structure PopulationZoneData where
  zone_id : String
  population : ℕ
  population_density_per_km2 : ℤ
  vulnerability_score : String
  demographics : String
  special_needs_population : ℕ
  deriving Repr, DecidableEq

/-- A deployment entry of the optimizer's JSON output.  The ids are
`Option String` because the source reads them with `.get` (absent keys
give `None`, which is never a member of a set of strings). -/
structure DeploymentEntry where
  team_id : Option String
  target_zone_id : Option String
  priority_level : String
  deployment_reason : String
  estimated_arrival_minutes : ℕ
  coordination_instructions : String
  deriving Repr, DecidableEq

/-- Embedding of `_validate_deployment_plan` (planning_agents.py lines
283-300): keep exactly the deployments whose `team_id` is among the
available teams and whose `target_zone_id` is among the population zones;
the result replaces the plan's deployment list (line 299). -/
def _validate_deployment_plan (deployments : List DeploymentEntry)
    (available_teams : List ResponseTeamData)
    (population_zones : List PopulationZoneData) : List DeploymentEntry :=
  let team_ids := available_teams.map (fun t => t.team_id)
  let zone_ids := population_zones.map (fun z => z.zone_id)
  deployments.filter (fun d =>
    (match d.team_id with
     | some tid => decide (tid ∈ team_ids)
     | none => false) &&
    (match d.target_zone_id with
     | some zid => decide (zid ∈ zone_ids)
     | none => false))

/-- The vulnerability weight dictionary of the optimizer
(planning_agents.py line 421): very_high 10000, high 5000, medium 2000,
anything else (including low) 0. -/
def vulnerabilityWeight (v : String) : ℤ :=
  if v = "very_high" then 10000
  else if v = "high" then 5000
  else if v = "medium" then 2000
  else 0

/-- The sort key of the optimizer: density plus vulnerability weight. -/
def riskKey (z : PopulationZoneData) : ℤ :=
  z.population_density_per_km2 + vulnerabilityWeight z.vulnerability_score

/-- Stable insertion used to model Python's `sorted`. -/
def insertSorted (le : α → α → Bool) (a : α) : List α → List α
  | [] => [a]
  | b :: bs => if le a b then a :: b :: bs else b :: insertSorted le a bs

/-- A stable sort by the boolean relation `le`, modelling Python's
`sorted(...)`; the claims here depend only on which elements appear, not
on their order. -/
def sortBy (le : α → α → Bool) : List α → List α
  | [] => []
  | a :: as => insertSorted le a (sortBy le as)

/-- Embedding of the deployment list built by
`watsonx_team_deployment_optimizer` (planning_agents.py lines 414-447):
sort the zones by descending risk, pair the first `len(teams)` of them
with the teams by position, and emit one deployment per pair. -/
def watsonx_team_deployment_optimizer (teams_data : List ResponseTeamData)
    (zones_data : List PopulationZoneData) : List DeploymentEntry :=
  let sorted_zones := sortBy (fun z1 z2 => decide (riskKey z2 ≤ riskKey z1)) zones_data
  ((sorted_zones.take teams_data.length).zip teams_data).map (fun p =>
    { team_id := some p.2.team_id
      target_zone_id := some p.1.zone_id
      priority_level := if p.1.vulnerability_score = "very_high" then "critical" else "high"
      deployment_reason := "High population density ("
        ++ toString p.1.population_density_per_km2 ++ "/km²) and "
        ++ p.1.vulnerability_score ++ " vulnerability"
      estimated_arrival_minutes := p.2.response_time_minutes + 5
      coordination_instructions := "Focus on " ++ p.1.demographics
        ++ " population with " ++ toString p.1.special_needs_population
        ++ " special needs individuals" })

theorem mem_insertSorted {α : Type} (le : α → α → Bool) (x a : α)
    (l : List α) : a ∈ insertSorted le x l ↔ a = x ∨ a ∈ l := by
  induction l with
  | nil => simp [insertSorted]
  | cons b bs ih =>
    simp only [insertSorted]
    split_ifs <;> simp_all [or_comm, or_left_comm]

theorem mem_sortBy {α : Type} (le : α → α → Bool) (a : α) (l : List α) :
    a ∈ sortBy le l ↔ a ∈ l := by
  induction l with
  | nil => simp [sortBy]
  | cons b bs ih => simp [sortBy, mem_insertSorted, ih]

/-- Claim C6.  A deployment entry survives `_validate_deployment_plan`
exactly when it came from the optimizer's list and both of its references
resolve in the reference data (so an entry naming a non-existent
`team_id` or `target_zone_id` is dropped, without failing the plan); and
every entry the template optimizer emits references a team from the
supplied team list and a zone from the supplied zone list. -/
theorem claim_C6_deployment_reference_validation :
    (∀ (deployments : List DeploymentEntry)
        (available_teams : List ResponseTeamData)
        (population_zones : List PopulationZoneData) (d : DeploymentEntry),
      d ∈ _validate_deployment_plan deployments available_teams population_zones ↔
        (d ∈ deployments ∧
          (∃ s, d.team_id = some s ∧
            s ∈ available_teams.map (fun t => t.team_id)) ∧
          (∃ s, d.target_zone_id = some s ∧
            s ∈ population_zones.map (fun z => z.zone_id)))) ∧
    (∀ (teams_data : List ResponseTeamData)
        (zones_data : List PopulationZoneData) (d : DeploymentEntry),
      d ∈ watsonx_team_deployment_optimizer teams_data zones_data →
        (∃ t ∈ teams_data, d.team_id = some t.team_id) ∧
        (∃ z ∈ zones_data, d.target_zone_id = some z.zone_id)) := by
  constructor
  · intro deployments available_teams population_zones d
    simp only [_validate_deployment_plan, List.mem_filter, Bool.and_eq_true]
    constructor
    · rintro ⟨hmem, h1, h2⟩
      refine ⟨hmem, ?_, ?_⟩
      · match hd : d.team_id with
        | some tid =>
          rw [hd] at h1
          exact ⟨tid, rfl, of_decide_eq_true h1⟩
        | none => rw [hd] at h1; cases h1
      · match hd : d.target_zone_id with
        | some zid =>
          rw [hd] at h2
          exact ⟨zid, rfl, of_decide_eq_true h2⟩
        | none => rw [hd] at h2; cases h2
    · rintro ⟨hmem, ⟨tid, htid, htmem⟩, ⟨zid, hzid, hzmem⟩⟩
      refine ⟨hmem, ?_, ?_⟩
      · rw [htid]; exact decide_eq_true htmem
      · rw [hzid]; exact decide_eq_true hzmem
  · intro teams_data zones_data d hd
    simp only [watsonx_team_deployment_optimizer, List.mem_map] at hd
    obtain ⟨p, hp, rfl⟩ := hd
    have hz : p.1 ∈ zones_data := by
      have := (List.of_mem_zip hp).1
      have := List.take_subset _ _ this
      exact (mem_sortBy _ _ _).mp this
    have ht : p.2 ∈ teams_data := (List.of_mem_zip hp).2
    exact ⟨⟨p.2, ht, rfl⟩, ⟨p.1, hz, rfl⟩⟩

/-- A concrete deployment entry whose references resolve. -/
def deployValid : DeploymentEntry :=
  { team_id := some "team_alpha", target_zone_id := some "zone_1"
    priority_level := "high", deployment_reason := "r"
    estimated_arrival_minutes := 10, coordination_instructions := "c" }

/-- A concrete deployment entry naming a team that does not exist. -/
def deployGhost : DeploymentEntry :=
  { team_id := some "team_ghost", target_zone_id := some "zone_1"
    priority_level := "high", deployment_reason := "r"
    estimated_arrival_minutes := 10, coordination_instructions := "c" }

/-- A one-team reference list for the witness. -/
def teamsW : List ResponseTeamData :=
  [{ team_id := "team_alpha", response_time_minutes := 10 }]

/-- A one-zone reference list for the witness. -/
def zonesW : List PopulationZoneData :=
  [{ zone_id := "zone_1", population := 100, population_density_per_km2 := 500
     vulnerability_score := "very_high", demographics := "urban"
     special_needs_population := 20 }]

/-- The single entry the template optimizer emits for `teamsW`/`zonesW`. -/
def deployOut : DeploymentEntry :=
  { team_id := some "team_alpha", target_zone_id := some "zone_1"
    priority_level := "critical"
    deployment_reason := "High population density (500/km²) and very_high vulnerability"
    estimated_arrival_minutes := 15
    coordination_instructions :=
      "Focus on urban population with 20 special needs individuals" }

/-- Witness for C6: with one resolvable and one dangling entry, the
membership characterization instantiates to the dangling entry, whose
right-hand side fails (no team is named `team_ghost`), so that entry is
excluded from the validated list; and the optimizer's concrete output
entry references the supplied team and zone. -/
theorem claim_C6_witness :
    (deployGhost ∈ _validate_deployment_plan [deployValid, deployGhost] teamsW zonesW ↔
      (deployGhost ∈ [deployValid, deployGhost] ∧
        (∃ s, deployGhost.team_id = some s ∧
          s ∈ teamsW.map (fun t => t.team_id)) ∧
        (∃ s, deployGhost.target_zone_id = some s ∧
          s ∈ zonesW.map (fun z => z.zone_id)))) ∧
    deployGhost ∉ _validate_deployment_plan [deployValid, deployGhost] teamsW zonesW ∧
    ((∃ t ∈ teamsW, deployOut.team_id = some t.team_id) ∧
      (∃ z ∈ zonesW, deployOut.target_zone_id = some z.zone_id)) :=
  ⟨claim_C6_deployment_reference_validation.1 [deployValid, deployGhost] teamsW
      zonesW deployGhost,
    fun hmem =>
      by
        have h := (claim_C6_deployment_reference_validation.1 [deployValid, deployGhost]
          teamsW zonesW deployGhost).mp hmem
        obtain ⟨-, ⟨s, hs, hsmem⟩, -⟩ := h
        simp [deployGhost, teamsW] at hs hsmem
        subst hs
        exact absurd hsmem (by decide),
    claim_C6_deployment_reference_validation.2 teamsW zonesW deployOut (by decide)⟩

/-! Detection routing after classification:
`watsonx_classification_node` (detection_nodes.py lines 213-225) and
`_route_from_watsonx_classification` (detection_workflow.py lines
171-180). -/

/-- The classification fields the routing decision reads. -/
structure ClassificationOutcome where
  threat_detected : Bool
  requires_confirmation : Bool
  ongoing : Bool
  deriving Repr, DecidableEq

/-- The `next_action` chosen by `watsonx_classification_node`
(detection_nodes.py lines 213-223): confirmation when a threat needs it
and the situation is not flagged ongoing, severity assessment for other
threats, and the wait state when no threat is detected. -/
def classification_next_action (c : ClassificationOutcome) : String :=
  if c.threat_detected then
    if c.requires_confirmation && !c.ongoing then "web_search_confirmation"
    else "severity_assessment"
  else "wait_interval"

/-- Embedding of `_route_from_watsonx_classification`
(detection_workflow.py lines 171-180). -/
def _route_from_watsonx_classification (next_action : String) : String :=
  if next_action = "web_search_confirmation" then "web_search_confirmation"
  else if next_action = "severity_assessment" then "severity_assessment"
  else "wait_interval"

/-- Claim C9.  A classification with `threat_detected = false` always
routes the detection state machine to the wait state, never to the
confirmation step or the severity-assessment step. -/
theorem claim_C9_no_threat_routes_to_wait (c : ClassificationOutcome)
    (hc : c.threat_detected = false) :
    _route_from_watsonx_classification (classification_next_action c) =
        "wait_interval" ∧
    _route_from_watsonx_classification (classification_next_action c) ≠
        "web_search_confirmation" ∧
    _route_from_watsonx_classification (classification_next_action c) ≠
        "severity_assessment" := by
  simp [classification_next_action, _route_from_watsonx_classification, hc]

/-- Witness for C9: a no-threat classification that would otherwise ask
for confirmation still routes to the wait state. -/
theorem claim_C9_witness :
    _route_from_watsonx_classification
        (classification_next_action ⟨false, true, false⟩) = "wait_interval" ∧
    _route_from_watsonx_classification
        (classification_next_action ⟨false, true, false⟩) ≠
      "web_search_confirmation" ∧
    _route_from_watsonx_classification
        (classification_next_action ⟨false, true, false⟩) ≠
      "severity_assessment" :=
  claim_C9_no_threat_routes_to_wait ⟨false, true, false⟩ rfl

end ArkWatson
